import Mathlib

/-!
Verification of the OData query-builder / pagination utility module
(`O365/utils/utils.py`): a shallow embedding of the `Query` filter and
order-by builder and of the `Pagination` iterator, together with theorems
about their behaviour.

External collaborators (the protocol's `convert_case` function and the
resolved local timezone from `get_localzone`) are modelled as parameters:
a `String → String` function and a fixed UTC offset in minutes.
-/

/-! ## Python-style string helpers

These mirror the Python string operations the source uses (`str.strip`,
`str.join`, `str.split('/')`), implemented structurally so that concrete
evaluation works inside proofs. -/

/-- Whitespace characters removed by Python `str.strip()` (the ones that can
actually occur in the strings the module builds). -/
def isPySpace (c : Char) : Bool :=
  c = ' ' || c = '\t' || c = '\n' || c = '\r'

/-- Python `s.strip()`: remove leading and trailing whitespace. -/
def pyStrip (s : String) : String :=
  List.asString (((s.toList.dropWhile isPySpace).reverse.dropWhile isPySpace).reverse)

/-- Python `sep.join(parts)`. -/
def joinWith (sep : String) : List String → String
  | [] => ""
  | [x] => x
  | x :: y :: r => x ++ sep ++ joinWith sep (y :: r)

/-- Python `s.split('/')` on the character list. -/
def splitSlashList : List Char → List (List Char)
  | [] => [[]]
  | ch :: r =>
    let rest := splitSlashList r
    if ch = '/' then [] :: rest
    else
      match rest with
      | h :: t => (ch :: h) :: t
      | [] => [[ch]]

/-- Python `s.split('/')`. -/
def splitSlash (s : String) : List String :=
  (splitSlashList s.toList).map List.asString

/-- Python truthiness of an optional string (`None` and `''` are falsy). -/
def pyTruthyStr (o : Option String) : Bool :=
  match o with
  | some s => !(s = "")
  | none => false

/-- Python `str(...)` formatting of an optional string (`None` prints as `"None"`). -/
def pyShowOptStr (o : Option String) : String :=
  match o with
  | some s => s
  | none => "None"

/-! ## Calendar arithmetic

`_parse_filter_word` localizes naive datetimes with the resolved local
timezone and converts them to UTC (`pytz` / `datetime` collaborators).  We
model a timezone as a fixed UTC offset in minutes and implement the civil
calendar conversion (proleptic Gregorian, the days-from-civil algorithm)
so that the conversion is computable. -/

/-- Days since 1970-01-01 of a civil date (proleptic Gregorian). -/
def daysFromCivil (y : Int) (m d : Nat) : Int :=
  let yy := if m ≤ 2 then y - 1 else y
  let era := (if yy ≥ 0 then yy else yy - 399) / 400
  let yoe := yy - era * 400
  let mp : Int := if m > 2 then (m : Int) - 3 else (m : Int) + 9
  let doy := (153 * mp + 2) / 5 + (d : Int) - 1
  let doe := yoe * 365 + yoe / 4 - yoe / 100 + doy
  era * 146097 + doe - 719468

/-- Civil date (year, month, day) of a count of days since 1970-01-01. -/
def civilFromDays (z0 : Int) : Int × Int × Int :=
  let z := z0 + 719468
  let era := (if z ≥ 0 then z else z - 146096) / 146097
  let doe := z - era * 146097
  let yoe := (doe - doe / 1460 + doe / 36524 - doe / 146096) / 365
  let y := yoe + era * 400
  let doy := doe - (365 * yoe + yoe / 4 - yoe / 100)
  let mp := (5 * doy + 2) / 153
  let d := doy - (153 * mp + 2) / 5 + 1
  let m := if mp < 10 then mp + 3 else mp - 9
  ((if m ≤ 2 then y + 1 else y), m, d)

/-- A wall-clock date and time, without timezone. -/
structure CivilDT where
  year : Nat
  month : Nat
  day : Nat
  hour : Nat
  minute : Nat
  second : Nat
deriving DecidableEq

/-- `pytz`-style localization of a naive datetime in a fixed-offset local
zone (offset in minutes east of UTC) followed by `astimezone(utc)`:
the wall clock is shifted by the negated offset. -/
def localizeToUtc (localOff : Int) (c : CivilDT) : CivilDT :=
  let total : Int :=
    daysFromCivil (c.year : Int) c.month c.day * 1440 + (c.hour * 60 + c.minute : Nat) - localOff
  let days : Int := Int.fdiv total 1440
  let rem : Nat := (total - days * 1440).toNat
  let ymd := civilFromDays days
  { year := ymd.1.toNat, month := ymd.2.1.toNat, day := ymd.2.2.toNat,
    hour := rem / 60, minute := rem % 60, second := c.second }

/-- One decimal digit as a character. -/
def digitChar : Nat → Char
  | 0 => '0'
  | 1 => '1'
  | 2 => '2'
  | 3 => '3'
  | 4 => '4'
  | 5 => '5'
  | 6 => '6'
  | 7 => '7'
  | 8 => '8'
  | _ => '9'

/-- Two-digit zero-padded decimal rendering. -/
def pad2n (n : Nat) : String :=
  List.asString [digitChar ((n / 10) % 10), digitChar (n % 10)]

/-- Four-digit zero-padded decimal rendering. -/
def pad4n (n : Nat) : String :=
  List.asString [digitChar ((n / 1000) % 10), digitChar ((n / 100) % 10),
    digitChar ((n / 10) % 10), digitChar (n % 10)]

/-- ISO-8601 UTC-offset suffix, e.g. `+00:00` or `-05:00` (offset in minutes). -/
def offStr (off : Int) : String :=
  (if off < 0 then "-" else "+") ++ pad2n (off.natAbs / 60) ++ ":" ++ pad2n (off.natAbs % 60)

/-- `date.isoformat()`. -/
def isoDate (y m d : Nat) : String :=
  pad4n y ++ "-" ++ pad2n m ++ "-" ++ pad2n d

/-- `datetime.isoformat()` (microseconds zero, hence omitted; a timezone-aware
value carries its offset suffix). -/
def isoDatetime (y m d hh mi ss : Nat) (tz : Option Int) : String :=
  isoDate y m d ++ "T" ++ pad2n hh ++ ":" ++ pad2n mi ++ ":" ++ pad2n ss ++
    (match tz with
     | none => ""
     | some off => offStr off)

/-- The Python values `_parse_filter_word` distinguishes: `str`, `date`,
`datetime` (naive or timezone-aware, offset in minutes), `bool`, and any
other value through its `str(...)` form. -/
inductive PyWord where
  | str (s : String)
  | dateOnly (y m d : Nat)
  | datetime (y m d hh mi ss : Nat) (tz : Option Int)
  | boolean (b : Bool)
  | other (text : String)
deriving DecidableEq

/-- `Query._parse_filter_word`: strings are single-quoted verbatim; a naive
datetime is localized in the resolved local zone (`localOff`, minutes east of
UTC) and converted to UTC, then rendered as a quoted ISO-8601 string; an
aware datetime (and a plain date) is rendered as its quoted ISO form;
booleans render lowercase; anything else via its default string form. -/
def parseFilterWord (localOff : Int) (word : PyWord) : String :=
  match word with
  | .str s => "'" ++ s ++ "'"
  | .dateOnly y m d => "'" ++ isoDate y m d ++ "'"
  | .datetime y m d hh mi ss tz =>
    match tz with
    | none =>
      let u := localizeToUtc localOff
        { year := y, month := m, day := d, hour := hh, minute := mi, second := ss }
      "'" ++ isoDatetime u.year u.month u.day u.hour u.minute u.second (some 0) ++ "'"
    | some off => "'" ++ isoDatetime y m d hh mi ss (some off) ++ "'"
  | .boolean b => if b then "true" else "false"
  | .other t => t

/-! ## The `Query` builder

Embeds the `Query` class: an attribute cursor, a chain operator, a negation
flag, the accumulated filter list (clauses interleaved with chain-operator
markers) and the ordered `_order_by` map (an insertion-ordered association
list, like `OrderedDict`).  The protocol's `convert_case` collaborator is
the `cc` field; the lazily resolved local timezone is the fixed offset
`localOff`. -/

/-- The `ChainOperator` enum. -/
inductive ChainOperator where
  | AND
  | OR
deriving DecidableEq

/-- `ChainOperator.value`: the wire token of the enum member. -/
def ChainOperator.value : ChainOperator → String
  | .AND => "and"
  | .OR => "or"

/-- An entry of `Query._filters`: either a `(mapped_attribute, clause_text)`
tuple or a `ChainOperator` enum member. -/
inductive FilterElem where
  | clause (attr : String) (text : String)
  | op (operation : ChainOperator)
deriving DecidableEq

/-- `isinstance(e, ChainOperator)` on a filter entry, negated. -/
def isClause : FilterElem → Bool
  | .clause _ _ => true
  | .op _ => false

/-- Whether the last entry of a filter list is a `ChainOperator`
(`isinstance(self._filters[-1], ChainOperator)`; `false` on an empty list). -/
def lastIsOp : List FilterElem → Bool
  | [] => false
  | [e] => !(isClause e)
  | _ :: e :: r => lastIsOp (e :: r)

/-- Insertion-ordered map upsert (`OrderedDict.__setitem__`): an existing key
keeps its position with its value updated, a new key is appended. -/
def odInsert (od : List (String × Option String)) (k : String) (v : Option String) :
    List (String × Option String) :=
  if od.any (fun p => p.1 = k) then od.map (fun p => if p.1 = k then (k, v) else p)
  else od ++ [(k, v)]

/-- Insertion-ordered map lookup (`OrderedDict.get` / indexing). -/
def odLookup (od : List (String × Option String)) (k : String) : Option (Option String) :=
  match od.find? (fun p => p.1 = k) with
  | some p => some p.2
  | none => none

/-- Deduplicate a key list keeping first occurrences, as building an
`OrderedDict` from a pair list does. -/
def dedupKeysAux (seen : List String) : List String → List String
  | [] => []
  | k :: r => if seen.contains k then dedupKeysAux seen r else k :: dedupKeysAux (seen ++ [k]) r

/-- First-occurrence key deduplication. -/
def dedupKeysFirst (l : List String) : List String :=
  dedupKeysAux [] l

/-- The `Query` builder state.  Fields map to `self.protocol.convert_case`
(`cc`), the resolved `self.localtz` as a fixed UTC offset in minutes
(`localOff`), `self._attribute`, `self._chain`, `self._negation`,
`self._filters` and `self._order_by`. -/
structure Query where
  cc : String → String
  localOff : Int
  attr : Option String
  chain : ChainOperator
  negation : Bool
  filters : List FilterElem
  order_by : List (String × Option String)

/-- The static `Query._mapping` alias table. -/
def queryAliasMap (attr : String) : Option String :=
  if attr = "from" then some "from/emailAddress/address"
  else if attr = "to" then some "toRecipients/emailAddress/address"
  else none

/-- `Query._get_mapping`: a falsy attribute gives `None`; an aliased attribute
has each slash-separated segment case-converted and rejoined; otherwise the
whole name is case-converted. -/
def Query.getMapping (cc : String → String) (attr : Option String) : Option String :=
  if pyTruthyStr attr then
    let a := attr.getD ""
    match queryAliasMap a with
    | some m => some (joinWith "/" ((splitSlash m).map cc))
    | none => some (cc a)
  else none

/-- `Query.new`: set the chain operator and the mapped attribute, reset the
negation flag; filters and order directives are untouched. -/
def Query.new (q : Query) (attr : Option String) (operation : ChainOperator) : Query :=
  { q with chain := operation,
           attr := if pyTruthyStr attr then Query.getMapping q.cc attr else none,
           negation := false }

/-- `Query.__init__` (after `ApiComponent` wiring): empty filters and order
map, then `self.new(attribute)` with the default `AND` chain operator. -/
def Query.mkInit (cc : String → String) (localOff : Int) (attr : Option String) : Query :=
  Query.new
    { cc := cc, localOff := localOff, attr := none, chain := ChainOperator.AND,
      negation := false, filters := [], order_by := [] }
    attr ChainOperator.AND

/-- `Query.clear`: discard filters and order directives, reinitialize the
cursor state via `new(None)`. -/
def Query.clearQ (q : Query) : Query :=
  Query.new { q with filters := [], order_by := [] } none ChainOperator.AND

/-- `Query.negate`: toggle the negation flag. -/
def Query.negate (q : Query) : Query :=
  { q with negation := !q.negation }

/-- `Query.chain`: set the chain operator joining the next predicate. -/
def Query.chainWith (q : Query) (operation : ChainOperator) : Query :=
  { q with chain := operation }

/-- `Query.on_attribute`: switch the current attribute through the mapping,
leaving negation and chain state alone. -/
def Query.onAttribute (q : Query) (attr : Option String) : Query :=
  { q with attr := Query.getMapping q.cc attr }

/-- `Query._add_filter`: requires a truthy current attribute (else
`ValueError`); if the filter list is non-empty and does not end in a chain
operator, the pending chain operator is appended first, then the
`(attribute, clause)` tuple. -/
def Query.addFilter (q : Query) (filter_str : String) : Except String Query :=
  if pyTruthyStr q.attr then
    let fs := if !q.filters.isEmpty && !lastIsOp q.filters
      then q.filters ++ [FilterElem.op q.chain] else q.filters
    Except.ok { q with filters := fs ++ [FilterElem.clause (q.attr.getD "") filter_str] }
  else Except.error "Attribute property needed. call on_attribute(attribute) or new(attribute)"

/-- The sentence built by `Query.logical_operator`:
`'{0} {1} {2} {3}'.format('not' if negation else '', attribute, operation, word).strip()`. -/
def Query.buildSentence (q : Query) (operation : String) (w : String) : String :=
  pyStrip ((if q.negation then "not" else "") ++ " " ++ pyShowOptStr q.attr ++ " " ++
    operation ++ " " ++ w)

/-- `Query.logical_operator`: parse the literal, build the sentence, append it. -/
def Query.logicalOperator (q : Query) (operation : String) (word : PyWord) :
    Except String Query :=
  q.addFilter (q.buildSentence operation (parseFilterWord q.localOff word))

/-- `Query.equals`. -/
def Query.equals (q : Query) (word : PyWord) : Except String Query :=
  q.logicalOperator "eq" word

/-- `Query.unequal`. -/
def Query.unequal (q : Query) (word : PyWord) : Except String Query :=
  q.logicalOperator "ne" word

/-- `Query.greater`. -/
def Query.greater (q : Query) (word : PyWord) : Except String Query :=
  q.logicalOperator "gt" word

/-- `Query.greater_equal`. -/
def Query.greaterEqual (q : Query) (word : PyWord) : Except String Query :=
  q.logicalOperator "ge" word

/-- `Query.less`. -/
def Query.less (q : Query) (word : PyWord) : Except String Query :=
  q.logicalOperator "lt" word

/-- `Query.less_equal`. -/
def Query.lessEqual (q : Query) (word : PyWord) : Except String Query :=
  q.logicalOperator "le" word

/-- The sentence built by `Query.function`:
`'{0} {1}({2}, {3})'.format('not' if negation else '', name, attribute, word).strip()`. -/
def Query.funcSentence (q : Query) (function_name : String) (w : String) : String :=
  pyStrip ((if q.negation then "not" else "") ++ " " ++ function_name ++ "(" ++
    pyShowOptStr q.attr ++ ", " ++ w ++ ")")

/-- `Query.function`: parse the literal, build the function sentence, append it. -/
def Query.functionFilter (q : Query) (function_name : String) (word : PyWord) :
    Except String Query :=
  q.addFilter (q.funcSentence function_name (parseFilterWord q.localOff word))

/-- `Query.contains`. -/
def Query.containsF (q : Query) (word : PyWord) : Except String Query :=
  q.functionFilter "contains" word

/-- `Query.startswith`. -/
def Query.startswithF (q : Query) (word : PyWord) : Except String Query :=
  q.functionFilter "startswith" word

/-- `Query.endswith`. -/
def Query.endswithF (q : Query) (word : PyWord) : Except String Query :=
  q.functionFilter "endswith" word

/-- `Query.order_by`: resolve the attribute through the mapping, falling back
on the current attribute when falsy; upsert the directive (`None` for
ascending, `'desc'` for descending) or raise `ValueError`. -/
def Query.orderBy (q : Query) (attr : Option String) (ascending : Bool) :
    Except String Query :=
  let a0 := Query.getMapping q.cc attr
  let a := if pyTruthyStr a0 then a0 else q.attr
  if pyTruthyStr a then
    let od := odInsert q.order_by (a.getD "") (if ascending then none else some "desc")
    Except.ok { q with order_by := od }
  else Except.error "Attribute property needed. call on_attribute(attribute) or new(attribute)"

/-- `Query.has_filters`. -/
def Query.hasFilters (q : Query) : Bool :=
  !q.filters.isEmpty

/-- `Query.has_order`. -/
def Query.hasOrder (q : Query) : Bool :=
  !q.order_by.isEmpty

/-- `Query.get_filters`: `None` on empty filters, else the space-join of
clause texts and operator tokens, a trailing enum member dropped, stripped. -/
def Query.getFilters (q : Query) : Option String :=
  if q.filters.isEmpty then none
  else
    let fl := if lastIsOp q.filters then q.filters.dropLast else q.filters
    some (pyStrip (joinWith " " (fl.map (fun e =>
      match e with
      | FilterElem.op c => c.value
      | FilterElem.clause _ t => t))))

/-- `Query.get_order`: collect filtered attributes in first-appearance order,
pop each of them out of the standalone `_order_by` map (a mutation of the
builder: the second component is the updated builder), append the remaining
standalone directives, and render `attr` / `attr desc` comma-joined (`None`
when the merge is empty). -/
def Query.getOrder (q : Query) : Option String × Query :=
  let filterAttrs := dedupKeysFirst (q.filters.filterMap (fun e =>
    match e with
    | FilterElem.clause a _ => some a
    | FilterElem.op _ => none))
  let rem := q.order_by.filter (fun p => !(filterAttrs.contains p.1))
  let foc := filterAttrs.map (fun a => (a, (odLookup q.order_by a).getD none))
  let merged := foc ++ rem
  let q2 := { q with order_by := rem }
  if merged.isEmpty then (none, q2)
  else (some (joinWith "," (merged.map (fun p => pyStrip (p.1 ++ " " ++ p.2.getD "")))), q2)

/-- `Query.as_params`: the optional `$filter` and `$orderby` values (key
present only when the corresponding `has_*` test passes) and the builder
after the call (`get_order` mutates `_order_by`). -/
def Query.asParams (q : Query) : (Option String × Option String) × Query :=
  let fil := if q.hasFilters then q.getFilters else none
  if q.hasOrder then
    let r := q.getOrder
    ((fil, r.1), r.2)
  else ((fil, none), q)

/-! ## Sequences of builder calls -/

/-- One public call on the builder: the cursor operations and the nine
predicate methods (`equals` … `endswith`), plus `order_by`. -/
inductive QOp where
  | newQ (attr : Option String) (operation : ChainOperator)
  | chainQ (operation : ChainOperator)
  | onAttrQ (attr : Option String)
  | negateQ
  | equalsQ (w : PyWord)
  | unequalQ (w : PyWord)
  | greaterQ (w : PyWord)
  | greaterEqualQ (w : PyWord)
  | lessQ (w : PyWord)
  | lessEqualQ (w : PyWord)
  | containsQ (w : PyWord)
  | startswithQ (w : PyWord)
  | endswithQ (w : PyWord)
  | orderByQ (attr : Option String) (ascending : Bool)

/-- Whether a call is one of the nine predicate methods. -/
def isPredicate : QOp → Bool
  | .equalsQ _ => true
  | .unequalQ _ => true
  | .greaterQ _ => true
  | .greaterEqualQ _ => true
  | .lessQ _ => true
  | .lessEqualQ _ => true
  | .containsQ _ => true
  | .startswithQ _ => true
  | .endswithQ _ => true
  | _ => false

/-- Keep the previous state when a call raises `ValueError` (the exception
fires before any mutation, so the builder is unchanged). -/
def orKeep (q : Query) (r : Except String Query) : Query :=
  match r with
  | .ok q2 => q2
  | .error _ => q

/-- Apply one call to the builder. -/
def applyOp (q : Query) (o : QOp) : Query :=
  match o with
  | .newQ a c => q.new a c
  | .chainQ c => q.chainWith c
  | .onAttrQ a => q.onAttribute a
  | .negateQ => q.negate
  | .equalsQ w => orKeep q (q.equals w)
  | .unequalQ w => orKeep q (q.unequal w)
  | .greaterQ w => orKeep q (q.greater w)
  | .greaterEqualQ w => orKeep q (q.greaterEqual w)
  | .lessQ w => orKeep q (q.less w)
  | .lessEqualQ w => orKeep q (q.lessEqual w)
  | .containsQ w => orKeep q (q.containsF w)
  | .startswithQ w => orKeep q (q.startswithF w)
  | .endswithQ w => orKeep q (q.endswithF w)
  | .orderByQ a asc => orKeep q (q.orderBy a asc)

/-- Apply a sequence of calls left to right. -/
def runOps (q : Query) (ops : List QOp) : Query :=
  ops.foldl applyOp q

/-! ## The `Pagination` iterator

State machine of `Pagination`: the buffer `data`, the continuation token
`next_link`, the optional `limit`, the servable batch size `data_count`,
the running `total_count` and the cursor `state`.  The optional item
constructor hook is collapsed to a transform on items.  A network fetch is
an oracle value: either an exception from `con.get` or a response carrying
the status code and the parsed JSON body (`@odata.nextLink` and `value`). -/

/-- The mutable state of a `Pagination` object. -/
structure PagState (α : Type) where
  data : List α
  next_link : Option String
  limit : Option Nat
  data_count : Nat
  total_count : Nat
  state : Nat
  ctor : Option (α → α)

/-- Outcome of `self.con.get(next_link)`: an exception (identified by a
code), or a response with its HTTP status, the `@odata.nextLink` value of
the JSON body, and the `value` item list. -/
inductive FetchOutcome (α : Type) where
  | exc (e : Nat)
  | resp (status_code : Nat) (nextLink : Option String) (value : List α)

/-- Result of one `__next__` call: an item with the successor state, a
`StopIteration`, or a propagated exception. -/
inductive NextResult (α : Type) where
  | item (value : α) (s : PagState α)
  | stop (s : PagState α)
  | raised (e : Nat) (s : PagState α)

/-- Whether a `__next__` result is `StopIteration`. -/
def NextResult.isStop {α : Type} : NextResult α → Bool
  | .stop _ => true
  | _ => false

/-- Python truthiness of the optional limit (`None` and `0` are falsy). -/
def pyTruthyNat (o : Option Nat) : Bool :=
  match o with
  | some n => !(n = 0)
  | none => false

/-- The guard `if self.limit and self.total_count >= self.limit`. -/
def limitGuard {α : Type} (s : PagState α) : Bool :=
  pyTruthyNat s.limit && decide (s.limit.getD 0 ≤ s.total_count)

/-- `Pagination.__init__` (given a concrete initial batch): `data_count` and
`total_count` start at the batch length, clamped to the limit when a truthy
limit is smaller. -/
def pagInit {α : Type} (data : List α) (next_link : Option String) (limit : Option Nat)
    (ctor : Option (α → α)) : PagState α :=
  let dc := data.length
  if pyTruthyNat limit && decide (limit.getD 0 < dc) then
    { data := data, next_link := next_link, limit := limit, data_count := limit.getD 0,
      total_count := limit.getD 0, state := 0, ctor := ctor }
  else
    { data := data, next_link := next_link, limit := limit, data_count := dc,
      total_count := dc, state := 0, ctor := ctor }

/-- `Pagination.__next__`.  The second component records whether the call hit
the network (`self.con.get`); `fetch` is the oracle for that single call.
Index errors (unreachable from the states the code builds) surface as
`raised 0` after the mutations Python performs before indexing. -/
def pagNext {α : Type} (s : PagState α) (fetch : FetchOutcome α) : NextResult α × Bool :=
  if s.state < s.data_count then
    match s.data.get? s.state with
    | some v => (NextResult.item v { s with state := s.state + 1 }, false)
    | none => (NextResult.raised 0 s, false)
  else if limitGuard s then (NextResult.stop s, false)
  else
    match s.next_link with
    | none => (NextResult.stop s, false)
    | some _ =>
      match fetch with
      | FetchOutcome.exc e => (NextResult.raised e s, true)
      | FetchOutcome.resp status nl value =>
        if status ≠ 200 then (NextResult.stop s, true)
        else
          let nl1 : Option String :=
            match nl with
            | some t => if t = "" then none else some t
            | none => none
          let newData : List α :=
            match s.ctor with
            | some f => value.map f
            | none => value
          let ic0 : Int := (value.length : Int)
          let tr : List α × Option String × Int :=
            if pyTruthyNat s.limit then
              let dif : Int := (s.limit.getD 0 : Int) - ((s.total_count : Int) + ic0)
              if dif < 0 then (newData.take (ic0 + dif).toNat, none, ic0 + dif)
              else (newData, nl1, ic0)
            else (newData, nl1, ic0)
          if tr.2.2 ≠ 0 then
            let sItem : PagState α :=
              { s with data := tr.1, next_link := tr.2.1, data_count := tr.2.2.toNat,
                       total_count := ((s.total_count : Int) + tr.2.2).toNat, state := 1 }
            let sErr : PagState α :=
              { s with data := tr.1, next_link := tr.2.1, data_count := tr.2.2.toNat,
                       total_count := ((s.total_count : Int) + tr.2.2).toNat, state := 0 }
            match tr.1.get? 0 with
            | some v => (NextResult.item v sItem, true)
            | none => (NextResult.raised 0 sErr, true)
          else
            (NextResult.stop { s with data := tr.1, next_link := tr.2.1 }, true)

/-- Drive the iterator to exhaustion with at most `fuel` pulls against a
queue of fetch outcomes: the items yielded, the number of network calls
performed, and the final state. -/
def pagRun {α : Type} (fuel : Nat) (s : PagState α) (oracle : List (FetchOutcome α)) :
    List α × Nat × PagState α :=
  match fuel with
  | 0 => ([], 0, s)
  | f + 1 =>
    let r := pagNext s (oracle.headD (FetchOutcome.exc 0))
    let oracle2 := if r.2 then oracle.tail else oracle
    let inc := if r.2 then 1 else 0
    match r.1 with
    | NextResult.item v s2 =>
      let rest := pagRun f s2 oracle2
      (v :: rest.1, inc + rest.2.1, rest.2.2)
    | NextResult.stop s2 => ([], inc, s2)
    | NextResult.raised _ s2 => ([], inc, s2)

/-! ## Well-formedness of the filter list

The alternation invariant of `_filters`: clauses and chain-operator markers
strictly alternate, and a non-empty list starts and ends with a clause, so
the rendered `$filter` never begins or ends with a bare operator token. -/

/-- Alternation check: the flag tells whether a clause (`true`) or a chain
operator (`false`) is expected at the head. -/
def altFrom : Bool → List FilterElem → Bool
  | _, [] => true
  | true, FilterElem.clause _ _ :: r => altFrom false r
  | false, FilterElem.op _ :: r => altFrom true r
  | _, _ => false

/-- Whether the last entry of a filter list is a clause (vacuously true on
the empty list). -/
def lastOk : List FilterElem → Bool
  | [] => true
  | [e] => isClause e
  | _ :: e :: r => lastOk (e :: r)

/-- A well-formed filter list: starting with a clause, clauses and chain
operators strictly alternate, and the list ends with a clause. -/
def goodChain (l : List FilterElem) : Bool :=
  altFrom true l && lastOk l

/-! ## Helper lemmas -/

theorem lastOk_not_lastIsOp : ∀ l : List FilterElem, lastOk l = true → lastIsOp l = false := by
  intro l
  induction l with
  | nil => intro _; rfl
  | cons x r ih =>
    intro h
    cases r with
    | nil =>
      cases x with
      | clause a t => rfl
      | op c => exact absurd h (by simp [lastOk, isClause])
    | cons y r2 => exact ih h

theorem lastOk_append_pair (c : ChainOperator) (a t : String) :
    ∀ l : List FilterElem, lastOk (l ++ [FilterElem.op c, FilterElem.clause a t]) = true := by
  intro l
  induction l with
  | nil => rfl
  | cons x r ih =>
    cases r with
    | nil => rfl
    | cons y r2 => exact ih

theorem altFrom_append_pair (c : ChainOperator) (a t : String) :
    ∀ (l : List FilterElem) (b : Bool), altFrom b l = true → lastOk l = true → l ≠ [] →
      altFrom b (l ++ [FilterElem.op c, FilterElem.clause a t]) = true := by
  intro l
  induction l with
  | nil => intro b _ _ hne; exact absurd rfl hne
  | cons x r ih =>
    intro b h1 h2 _
    cases r with
    | nil =>
      cases x with
      | clause a2 t2 =>
        cases b with
        | false => exact absurd h1 (by simp [altFrom])
        | true => rfl
      | op c2 => exact absurd h2 (by simp [lastOk, isClause])
    | cons y r2 =>
      cases x with
      | clause a2 t2 =>
        cases b with
        | false => exact absurd h1 (by simp [altFrom])
        | true => exact ih false h1 h2 (by simp)
      | op c2 =>
        cases b with
        | true => exact absurd h1 (by simp [altFrom])
        | false => exact ih true h1 h2 (by simp)

theorem goodChain_addFilter (q : Query) (str : String) (h : goodChain q.filters = true) :
    goodChain (orKeep q (q.addFilter str)).filters = true := by
  unfold Query.addFilter
  by_cases hc : pyTruthyStr q.attr = true
  · rw [if_pos hc]
    have h12 : altFrom true q.filters = true ∧ lastOk q.filters = true := by
      simpa [goodChain, Bool.and_eq_true] using h
    have h1 := h12.1
    have h2 := h12.2
    cases hf : q.filters with
    | nil =>
      simp only [orKeep, hf]
      rfl
    | cons x r =>
      have hop : lastIsOp q.filters = false := lastOk_not_lastIsOp q.filters h2
      simp only [orKeep, hf, List.isEmpty_cons, Bool.not_false, Bool.true_and]
      rw [hf] at hop
      rw [hop]
      simp only [Bool.not_false, if_pos]
      rw [List.append_assoc]
      simp only [List.cons_append, List.nil_append]
      rw [hf] at h1 h2
      unfold goodChain
      rw [Bool.and_eq_true]
      constructor
      · exact altFrom_append_pair q.chain (q.attr.getD "") str (x :: r) true h1 h2 (by simp)
      · exact lastOk_append_pair q.chain (q.attr.getD "") str (x :: r)
  · rw [if_neg hc]
    exact h

theorem orderBy_keeps_filters (q : Query) (a : Option String) (asc : Bool) :
    (orKeep q (q.orderBy a asc)).filters = q.filters := by
  simp only [Query.orderBy]
  split <;> split <;> rfl

theorem goodChain_applyOp (q : Query) (o : QOp) (h : goodChain q.filters = true) :
    goodChain (applyOp q o).filters = true := by
  cases o with
  | newQ a c => exact h
  | chainQ c => exact h
  | onAttrQ a => exact h
  | negateQ => exact h
  | equalsQ w => exact goodChain_addFilter q _ h
  | unequalQ w => exact goodChain_addFilter q _ h
  | greaterQ w => exact goodChain_addFilter q _ h
  | greaterEqualQ w => exact goodChain_addFilter q _ h
  | lessQ w => exact goodChain_addFilter q _ h
  | lessEqualQ w => exact goodChain_addFilter q _ h
  | containsQ w => exact goodChain_addFilter q _ h
  | startswithQ w => exact goodChain_addFilter q _ h
  | endswithQ w => exact goodChain_addFilter q _ h
  | orderByQ a asc =>
    show goodChain (orKeep q (q.orderBy a asc)).filters = true
    rw [orderBy_keeps_filters q a asc]
    exact h

theorem goodChain_runOps (ops : List QOp) :
    ∀ q : Query, goodChain q.filters = true → goodChain (runOps q ops).filters = true := by
  induction ops with
  | nil => intro q h; exact h
  | cons o r ih => intro q h; exact ih (applyOp q o) (goodChain_applyOp q o h)

theorem addFilter_keeps_negation (q : Query) (s : String) :
    (orKeep q (q.addFilter s)).negation = q.negation := by
  simp only [Query.addFilter]
  split <;> rfl

/-! ## Claim theorems -/

/-- Claim C1: a `Pagination` iterator built with `limit=5`, an initial batch
of 3 items and a continuation token, whose single fetch returns 4 items and
another continuation token, yields exactly the 5 items, performs exactly one
fetch, truncates the fetched batch to 2 items, and forces the continuation
token to `None` so that no second fetch happens. -/
theorem pagination_limit_truncation :
    (pagRun 20 (pagInit [1, 2, 3] (some "n1") (some 5) none)
      [FetchOutcome.resp 200 (some "n2") [4, 5, 6, 7]]).1 = [1, 2, 3, 4, 5] ∧
    (pagRun 20 (pagInit [1, 2, 3] (some "n1") (some 5) none)
      [FetchOutcome.resp 200 (some "n2") [4, 5, 6, 7]]).2.1 = 1 ∧
    (pagRun 20 (pagInit [1, 2, 3] (some "n1") (some 5) none)
      [FetchOutcome.resp 200 (some "n2") [4, 5, 6, 7]]).2.2.data = [4, 5] ∧
    (pagRun 20 (pagInit [1, 2, 3] (some "n1") (some 5) none)
      [FetchOutcome.resp 200 (some "n2") [4, 5, 6, 7]]).2.2.next_link = none :=
  ⟨by decide, by decide, by decide, by decide⟩

/-- Claim C2: with filter clauses on attributes `a` then `b` and explicit
order directives `b` descending then `c` ascending, `as_params` renders
`$orderby` as `a,b desc,c`: filtered attributes first in first-appearance
order carrying the direction of a matching directive, then the remaining
standalone directives in insertion order, comma-joined, `desc` only for
descending. -/
theorem order_merge_rendering :
    ((runOps (Query.mkInit (fun s => s) 0 none)
      [QOp.newQ (some "a") ChainOperator.AND, QOp.equalsQ (PyWord.str "x"),
       QOp.newQ (some "b") ChainOperator.AND, QOp.equalsQ (PyWord.str "y"),
       QOp.orderByQ (some "b") false, QOp.orderByQ (some "c") true]).asParams).1.2
    = some "a,b desc,c" := by
  decide

/-- Claim C3: after any sequence of builder calls (the nine predicate
methods interleaved with `new` / `chain` / `on_attribute` / `negate` /
`order_by`), the accumulated filter list alternates clause, operator,
clause, …, starting and ending with a clause when non-empty — hence the
space-joined `$filter` rendering never begins or ends with a bare `and`/`or`
token (the defensive trailing-operator drop in `get_filters` never fires). -/
theorem filters_alternation (cc : String → String) (off : Int) (a0 : Option String)
    (ops : List QOp) :
    goodChain (runOps (Query.mkInit cc off a0) ops).filters = true :=
  goodChain_runOps ops (Query.mkInit cc off a0) rfl

/-- Claim C4: during a fetch (buffer exhausted, limit not reached,
continuation token present), a response with a non-success status code makes
`__next__` raise `StopIteration` with the state untouched and no exception,
while an exception from `con.get` is re-raised unchanged after the single
fetch attempt. -/
theorem pagination_error_handling {α : Type} (s : PagState α) (u : String) (status : Nat)
    (nl : Option String) (v : List α) (e : Nat)
    (h1 : ¬ s.state < s.data_count) (h2 : limitGuard s = false)
    (h3 : s.next_link = some u) (h4 : status ≠ 200) :
    pagNext s (FetchOutcome.resp status nl v) = (NextResult.stop s, true) ∧
    pagNext s (FetchOutcome.exc e) = (NextResult.raised e s, true) := by
  constructor
  · unfold pagNext
    rw [if_neg h1, h2, h3]
    simp [h4]
  · unfold pagNext
    rw [if_neg h1, h2, h3]
    simp

/-- Witness for C4: a concrete iterator state over `Nat` items with an empty
buffer, limit `5` not yet reached and a pending continuation token: an HTTP
500 response stops the iteration, exception `3` is re-raised. -/
theorem pagination_error_handling_witness :
    pagNext (⟨[], some "u", some 5, 0, 0, 0, none⟩ : PagState Nat)
      (FetchOutcome.resp 500 none []) =
      (NextResult.stop (⟨[], some "u", some 5, 0, 0, 0, none⟩ : PagState Nat), true) ∧
    pagNext (⟨[], some "u", some 5, 0, 0, 0, none⟩ : PagState Nat)
      (FetchOutcome.exc 3) =
      (NextResult.raised 3 (⟨[], some "u", some 5, 0, 0, 0, none⟩ : PagState Nat), true) :=
  pagination_error_handling _ "u" 500 none [] 3 (by decide) (by decide) rfl (by decide)

/-- Claim C5: `negate` toggles the negation flag; none of the nine predicate
methods consumes it; only `new` resets it to false; with the flag set and
current attribute `subject`, a comparison sentence carries exactly one
leading `not` token (`not subject eq 5`) and a function sentence renders
`not contains(subject, 5)`; with the flag cleared (e.g. after two `negate`
calls) the sentence carries no `not` token. -/
theorem negation_lifecycle :
    (∀ q : Query, (q.negate).negation = !q.negation) ∧
    (∀ (q : Query) (o : QOp), isPredicate o = true → (applyOp q o).negation = q.negation) ∧
    (∀ (q : Query) (a : Option String) (c : ChainOperator), (q.new a c).negation = false) ∧
    (∀ q : Query, q.negation = true → q.attr = some "subject" →
      q.buildSentence "eq" (parseFilterWord q.localOff (PyWord.other "5")) = "not subject eq 5" ∧
      q.funcSentence "contains" (parseFilterWord q.localOff (PyWord.other "5"))
        = "not contains(subject, 5)") ∧
    (∀ q : Query, q.negation = false → q.attr = some "subject" →
      q.buildSentence "eq" (parseFilterWord q.localOff (PyWord.other "5")) = "subject eq 5") := by
  refine ⟨fun q => rfl, ?_, fun q a c => rfl, ?_, ?_⟩
  · intro q o ho
    cases o <;> simp only [isPredicate] at ho <;>
      first
        | exact addFilter_keeps_negation q _
        | cases ho
  · intro q h1 h2
    unfold Query.buildSentence Query.funcSentence
    rw [h1, h2]
    simp only [parseFilterWord]
    exact ⟨by decide, by decide⟩
  · intro q h1 h2
    unfold Query.buildSentence
    rw [h1, h2]
    simp only [parseFilterWord]
    decide

/-- Witness for C5: on a freshly built query on attribute `subject`, one
`negate` makes the next `equals` predicate keep the flag and render with one
`not` token; two `negate` calls cancel. -/
theorem negation_lifecycle_witness :
    ((Query.mkInit (fun s => s) 0 (some "subject")).negate.buildSentence "eq"
        (parseFilterWord 0 (PyWord.other "5")) = "not subject eq 5") ∧
    (applyOp (Query.mkInit (fun s => s) 0 (some "subject"))
        (QOp.equalsQ (PyWord.other "5"))).negation = false ∧
    ((Query.mkInit (fun s => s) 0 (some "subject")).negate.negate.buildSentence "eq"
        (parseFilterWord 0 (PyWord.other "5")) = "subject eq 5") :=
  ⟨(negation_lifecycle.2.2.2.1 ((Query.mkInit (fun s => s) 0 (some "subject")).negate)
      (by decide) (by decide)).1,
   negation_lifecycle.2.1 (Query.mkInit (fun s => s) 0 (some "subject"))
      (QOp.equalsQ (PyWord.other "5")) (by decide),
   negation_lifecycle.2.2.2.2 ((Query.mkInit (fun s => s) 0 (some "subject")).negate.negate)
      (by decide) (by decide)⟩

/-- Counterexample to claim C6 as stated: with an initial buffer of 3 items
and `limit=2`, `__init__` clamps `data_count` to 2 while `self.data` keeps
all 3 items; after yielding two items the cursor (2) is still strictly less
than the buffer length (3), yet the next call raises `StopIteration` instead
of returning `buffer[2]` — the serving guard is `state < data_count`, not
`state < len(buffer)`, so the "regardless of the limit" part fails. -/
theorem buffer_guard_counterexample :
    (pagRun 10 (pagInit [1, 2, 3] none (some 2) none) []).1 = [1, 2] ∧
    (pagRun 10 (pagInit [1, 2, 3] none (some 2) none) []).2.2.state
      < (pagRun 10 (pagInit [1, 2, 3] none (some 2) none) []).2.2.data.length ∧
    (pagNext ((pagRun 10 (pagInit [1, 2, 3] none (some 2) none) []).2.2)
      (FetchOutcome.exc 0)).1.isStop = true :=
  ⟨by decide, by decide, by decide⟩

/-- Claim C6 as amended: on every `__next__` call, if the cursor is strictly
less than `data_count` — the recorded servable batch size, which the
constructor clamps to the limit when a truthy limit is smaller than the
initial batch — the iterator returns the buffer item at the cursor and
advances the cursor by one, without consulting the limit or fetching. -/
theorem pagNext_serves_within_count {α : Type} (s : PagState α) (f : FetchOutcome α)
    (h : s.state < s.data_count) (h2 : s.state < s.data.length) :
    pagNext s f = (NextResult.item (s.data.get ⟨s.state, h2⟩) { s with state := s.state + 1 },
      false) := by
  unfold pagNext
  rw [if_pos h, List.get?_eq_get h2]

/-- Witness for the amended C6: a concrete two-item buffer serves its head
and advances the cursor. -/
theorem pagNext_serves_within_count_witness :
    pagNext (⟨[7, 8], none, none, 2, 2, 0, none⟩ : PagState Nat) (FetchOutcome.exc 0)
    = (NextResult.item 7 (⟨[7, 8], none, none, 2, 2, 1, none⟩ : PagState Nat), false) :=
  pagNext_serves_within_count _ _ (by decide) (by decide)

/-- Claim C7: literal rendering in predicates — a string renders single-quoted
verbatim; the naive datetime `2021-01-01T00:00:00` in local zone UTC-5
(offset `-300` minutes) is localized, converted to UTC and rendered as the
quoted ISO instant `2021-01-01T05:00:00+00:00`; a timezone-aware datetime
renders as its quoted ISO-8601 form (e.g. `2021-01-01T00:00:00-05:00`);
booleans render lowercase `true`/`false`; other values render via their
default string form. -/
theorem parse_filter_word_rendering :
    (∀ (off : Int) (s : String), parseFilterWord off (PyWord.str s) = "'" ++ s ++ "'") ∧
    (parseFilterWord (-300) (PyWord.datetime 2021 1 1 0 0 0 none)
      = "'2021-01-01T05:00:00+00:00'") ∧
    (∀ (off : Int) (y m d hh mi ss : Nat) (o : Int),
      parseFilterWord off (PyWord.datetime y m d hh mi ss (some o))
        = "'" ++ isoDatetime y m d hh mi ss (some o) ++ "'") ∧
    (parseFilterWord 0 (PyWord.datetime 2021 1 1 0 0 0 (some (-300)))
      = "'2021-01-01T00:00:00-05:00'") ∧
    (∀ off : Int, parseFilterWord off (PyWord.boolean true) = "true"
      ∧ parseFilterWord off (PyWord.boolean false) = "false") ∧
    (∀ (off : Int) (t : String), parseFilterWord off (PyWord.other t) = t) :=
  ⟨fun _ _ => rfl, by decide, fun _ _ _ _ _ _ _ _ => rfl, by decide,
   fun _ => ⟨rfl, rfl⟩, fun _ _ => rfl⟩

/-- Claim C8: `new(attribute, chain_operator)` resets the negation flag,
installs the given chain operator, sets the current attribute through the
attribute mapping (`None` for a falsy attribute) and leaves the accumulated
filters and order directives untouched. -/
theorem new_frame_effect (q : Query) (a : Option String) (c : ChainOperator) :
    (q.new a c).negation = false ∧ (q.new a c).chain = c ∧
    (q.new a c).attr = (if pyTruthyStr a then Query.getMapping q.cc a else none) ∧
    (q.new a c).filters = q.filters ∧ (q.new a c).order_by = q.order_by :=
  ⟨rfl, rfl, rfl, rfl, rfl⟩

/-- Counterexample to claim C9 as stated: the empty string is a non-null
attribute without a registered alias, yet `_get_mapping` returns `None` for
it instead of case-converting it as a unit (the code tests Python
truthiness, which the empty string fails). -/
theorem get_mapping_empty_counterexample :
    Query.getMapping (fun s => s ++ "X") (some "")
      ≠ some ((fun s : String => s ++ "X") "") :=
  by decide

/-- Claim C9 as amended: a `None` or empty attribute resolves to `None`; an
attribute with a registered alias (`from`, `to`) has each slash-separated
segment of the alias case-converted independently and rejoined with `/`;
every other non-empty attribute is case-converted as a whole. -/
theorem get_mapping_resolution (cc : String → String) (a : String) (h : a ≠ "") :
    Query.getMapping cc none = none ∧
    Query.getMapping cc (some "") = none ∧
    Query.getMapping cc (some "from")
      = some (joinWith "/" [cc "from", cc "emailAddress", cc "address"]) ∧
    Query.getMapping cc (some "to")
      = some (joinWith "/" [cc "toRecipients", cc "emailAddress", cc "address"]) ∧
    (queryAliasMap a = none → Query.getMapping cc (some a) = some (cc a)) := by
  refine ⟨rfl, rfl, rfl, rfl, ?_⟩
  intro hal
  simp [Query.getMapping, pyTruthyStr, h, hal]

/-- Witness for the amended C9: with the identity case conversion, `from`
resolves to its alias path and `subject` to itself. -/
theorem get_mapping_resolution_witness :
    Query.getMapping (fun s => s) (some "from") = some "from/emailAddress/address" ∧
    Query.getMapping (fun s => s) (some "subject") = some "subject" :=
  ⟨(get_mapping_resolution (fun s => s) "subject" (by decide)).2.2.1,
   (get_mapping_resolution (fun s => s) "subject" (by decide)).2.2.2.2 (by decide)⟩

/-- Claim C10: rendering the order is not a pure observation — for a query
with a filter on `a` and an explicit descending directive on `a`, the first
`as_params` call renders `$orderby` as `a desc` and pops the directive out
of the standalone order map, so an immediately following `as_params` on the
resulting builder has no `$orderby` at all. -/
theorem order_render_mutates :
    ((runOps (Query.mkInit (fun s => s) 0 (some "a"))
      [QOp.equalsQ (PyWord.str "x"), QOp.orderByQ (some "a") false]).asParams).1.2
      = some "a desc" ∧
    ((runOps (Query.mkInit (fun s => s) 0 (some "a"))
      [QOp.equalsQ (PyWord.str "x"), QOp.orderByQ (some "a") false]).asParams).2.order_by
      = [] ∧
    (((runOps (Query.mkInit (fun s => s) 0 (some "a"))
      [QOp.equalsQ (PyWord.str "x"), QOp.orderByQ (some "a") false]).asParams).2.asParams).1.2
      = none :=
  ⟨by decide, by decide, by decide⟩
